import Mathlib

/-!
Verification development for the shaggydog generation pipeline.

Shallow embedding of the pipeline code:
- `app/openai_client.py` : breed-detection response parsing and the
  url / b64_json extraction of the Images API results;
- `app/services/shaggy.py` : mask geometry, square-PNG normalization,
  prompt construction, and the sequential edit1 / edit2 / generate run;
- `app/main.py` : the background worker `_start_generation_thread` and
  the data model of `app/models.py` (Generation, ImageAsset).

External effects (the OpenAI network calls, the PNG encoder, HTTP
fetches, JSON parsing by the `json` library) are taken as explicit
function or value parameters; everything the repository itself computes
is translated directly from the source.
-/

/-- A JSON value, as returned by the external `json.loads`.  Numbers are
modelled as rationals (the source literal `0.3` is the rational 3/10). -/
inductive JVal where
  | jstr : String → JVal
  | jnum : Rat → JVal
  | jbool : Bool → JVal
  | jnull : JVal
  | jarr : List JVal → JVal
  | jobj : List (String × JVal) → JVal

/-- The fixed fallback detection result of `openai_client.py` line 50:
`\x7b"breed": "Golden Retriever", "confidence": 0.3, "reasoning":
"Fallback due to parsing error."\x7d`. -/
def fallback_breed_info : JVal :=
  .jobj [("breed", .jstr "Golden Retriever"),
         ("confidence", .jnum (3 / 10)),
         ("reasoning", .jstr "Fallback due to parsing error.")]

/-- Python `text.find(c)`: index of the first occurrence, `none` for -1. -/
def pyFind (c : Char) (text : List Char) : Option Nat :=
  text.findIdx? (· = c)

/-- Python `text.rfind(c)`: index of the last occurrence, `none` for -1. -/
def pyRfind (c : Char) (text : List Char) : Option Nat :=
  (text.reverse.findIdx? (· = c)).map (fun i => text.length - 1 - i)

/-- The largest brace-delimited substring used by
`detect_breed_from_headshot` (openai_client.py lines 43-45):
`text[start:end+1]` when `start = text.find("\x7b") != -1`,
`end = text.rfind("\x7d") != -1` and `end > start`. -/
def bracesSub (text : List Char) : Option (List Char) :=
  match pyFind '\x7b' text, pyRfind '\x7d' text with
  | some s, some e => if s < e then some ((text.drop s).take (e + 1 - s)) else none
  | _, _ => none

/-- The response-parsing tail of `detect_breed_from_headshot`
(openai_client.py lines 39-50): try `json.loads` on the whole payload,
then on the largest brace-delimited substring, and fall back to
`fallback_breed_info` when both fail.  `parse` is the external
`json.loads`, partial because malformed text raises. -/
def detect_breed_parse (parse : List Char → Option JVal) (text : List Char) : JVal :=
  match parse text with
  | some v => v
  | none =>
    match bracesSub text with
    | some sub =>
      match parse sub with
      | some v => v
      | none => fallback_breed_info
    | none => fallback_breed_info

/-- Python `str.strip()`: remove whitespace from both ends (modelled
over the ASCII whitespace characters). -/
def pyStrip (s : String) : String :=
  String.mk
    (((s.data.dropWhile fun c => c.isWhitespace).reverse.dropWhile
        fun c => c.isWhitespace).reverse)

/-- `main.py` line 143: `breed = (breed_info.get("breed") or "Golden
Retriever").strip()`.  `.get` on a non-dict raises `AttributeError`, a
falsy value (`None`, `""`, `0`, `False`, `[]`, empty object) selects the
default, and `.strip()` on a truthy non-string raises `AttributeError`;
errors carry the Python exception text without its quote characters. -/
def breedFromInfo : JVal → Except String String
  | .jobj kvs =>
    match kvs.lookup "breed" with
    | none => .ok (pyStrip "Golden Retriever")
    | some .jnull => .ok (pyStrip "Golden Retriever")
    | some (.jbool false) => .ok (pyStrip "Golden Retriever")
    | some (.jbool true) => .error "AttributeError: bool object has no attribute strip"
    | some (.jstr s) =>
      if s = "" then .ok (pyStrip "Golden Retriever") else .ok (pyStrip s)
    | some (.jnum q) =>
      if q = 0 then .ok (pyStrip "Golden Retriever")
      else .error "AttributeError: number object has no attribute strip"
    | some (.jarr []) => .ok (pyStrip "Golden Retriever")
    | some (.jarr (_ :: _)) =>
      .error "AttributeError: list object has no attribute strip"
    | some (.jobj []) => .ok (pyStrip "Golden Retriever")
    | some (.jobj (_ :: _)) =>
      .error "AttributeError: dict object has no attribute strip"
  | _ => .error "AttributeError: object has no attribute get"

/-- The three prompts returned by `generate_transition_prompts`
(shaggy.py lines 85-107). -/
structure Prompts where
  t1 : String
  t2 : String
  dog : String
deriving DecidableEq, Repr

def t1_pre : String :=
  "Edit ONLY the face area. Keep the same person, same body, same clothes, same background. Do NOT add any extra animals, extra faces, or split-screen/comparison panels. One subject only. Subtle (30%) "

def t1_post : String :=
  " traits: faint fur texture on cheeks, slightly wider/darker canine nose, very slight muzzle lengthening, tiny ear hints near hairline."

def t2_pre : String :=
  "Edit ONLY the face area. Keep the same person, same body, same clothes, same background. Do NOT add any extra animals, extra faces, or split-screen/comparison panels. One subject only. Stronger (70%) "

def t2_post : String :=
  " traits: visible fur on face/neck, clearly canine nose, noticeably longer muzzle, dog ears formed, jaw reshaped to canine proportions."

def dog_pre : String := "Single "

def dog_post : String :=
  " dog headshot portrait, studio lighting, centered, one dog only, no collage, no text."

/-- `generate_transition_prompts(breed)` (shaggy.py lines 85-107): the
three f-strings, each a literal with `breed` interpolated once. -/
def generate_transition_prompts (breed : String) : Prompts :=
  { t1 := t1_pre ++ (breed ++ t1_post)
  , t2 := t2_pre ++ (breed ++ t2_post)
  , dog := dog_pre ++ (breed ++ dog_post) }

/-- The ellipse bounding box of `_make_face_mask` (shaggy.py lines 23-26):
`int(w * 0.16)`, `int(w * 0.84)`, `int(h * 0.04)`, `int(h * 0.82)`.
`int` truncates toward zero; on the canvas sizes the pipeline produces
(1024 and 768) the float products agree with the exact rationals, so the
bounds are the floors `w * 16 / 100` etc. in natural division. -/
def make_face_mask_bounds (w h : Nat) : Nat × Nat × Nat × Nat :=
  (w * 16 / 100, w * 84 / 100, h * 4 / 100, h * 82 / 100)

/-- `_make_face_mask` builds the mask on a canvas of the same size as
the input image (shaggy.py line 18: `Image.new("RGBA", (w, h), ...)`). -/
def make_face_mask_size (w h : Nat) : Nat × Nat := (w, h)

/-- A PIL image as the pipeline observes it: pixel dimensions and
whether a transparency channel is present. -/
structure PilImage where
  width : Nat
  height : Nat
  alpha : Bool
deriving DecidableEq, Repr

/-- `_square_png_under_4mb` (shaggy.py lines 57-81): convert to RGB (no
alpha), paste centered on a white square canvas of side `max w h`,
resize to 1024x1024, save as PNG; if the saved file exceeds 4 MiB,
resize once to 768x768 and save again, with no further check.  `enc r`
is the external PNG-encoded byte size of this canvas at resolution `r`.
Returns the final image together with its saved encoded size. -/
def square_png_under_4mb (enc : Nat → Nat) (img : PilImage) : PilImage × Nat :=
  let side := max img.width img.height
  let canvas : PilImage := { width := side, height := side, alpha := false }
  let resized : PilImage := { width := 1024, height := 1024, alpha := canvas.alpha }
  if enc 1024 > 4 * 1024 * 1024 then
    ({ width := 768, height := 768, alpha := resized.alpha }, enc 768)
  else
    (resized, enc 1024)

/-- A Python value that is either a `str` or a `bytes` object; the
dynamic distinction matters because `main.py` line 160 calls
`.encode("utf-8")` on the values returned by the pipeline. -/
inductive PyStrBytes where
  | pstr : String → PyStrBytes
  | pbytes : List Nat → PyStrBytes
deriving DecidableEq, Repr

/-- An `ImageAsset` row of `models.py` (the fields the worker writes). -/
structure Asset where
  kind : String
  mime_type : String
  data : PyStrBytes
deriving DecidableEq, Repr

/-- `Generation.status` values of `models.py`. -/
inductive Status where
  | processing
  | done
  | error
deriving DecidableEq, Repr

/-- A `Generation` row of `models.py` (the fields the worker touches). -/
structure Generation where
  user_id : Nat
  breed : Option String
  status : Status
  error_message : Option String
deriving DecidableEq, Repr

/-- The database rows of one generation job: its `Generation` row (if
present) and the `ImageAsset` rows belonging to it. -/
structure DBState where
  gen : Option Generation
  assets : List Asset
deriving DecidableEq, Repr

/-- The temporary files a worker run can create: the copy of the
original upload (`main.py` line 148), the normalized square canvas and
the face mask (`shaggy.py` lines 72 and 35), and the buffer holding the
edit1 output (`shaggy.py` line 148). -/
inductive TempFile where
  | originalCopy
  | basePng
  | maskPng
  | t1Png
deriving DecidableEq, Repr

/-- Outcomes of the three external synthesis calls of one run, in
program order: the two `edit_image_with_prompt` calls and the
`generate_image_from_prompt` call.  `Except.error` is the exception the
call raises. -/
structure SynthOutcomes where
  t1 : Except String (List Nat)
  t2 : Except String (List Nat)
  dog : Except String (List Nat)
deriving Repr

/-- Result of one `generate_images_multithreaded` run: the returned
dict (or the exception), plus the temporary files it created and
deleted. -/
structure GenRun where
  result : Except String (List (String × PyStrBytes))
  created : List TempFile
  deleted : List TempFile
deriving Repr

/-- `generate_images_multithreaded` (shaggy.py lines 113-166): build
prompts, normalize the original to a square PNG (creates `basePng`),
build the mask (creates `maskPng`), then run edit1, write its output to
a temp file (creates `t1Png`), run edit2, run generate, in strict
sequence; an exception at any call propagates immediately.  The dict
values are `bytes`.  No temporary file is ever deleted. -/
def generate_images_multithreaded (breed : String) (s : SynthOutcomes) : GenRun :=
  let _prompts := generate_transition_prompts breed
  match s.t1 with
  | .error e => { result := .error e, created := [.basePng, .maskPng], deleted := [] }
  | .ok b1 =>
    match s.t2 with
    | .error e =>
      { result := .error e, created := [.basePng, .maskPng, .t1Png], deleted := [] }
    | .ok b2 =>
      match s.dog with
      | .error e =>
        { result := .error e, created := [.basePng, .maskPng, .t1Png], deleted := [] }
      | .ok b3 =>
        { result := .ok [("t1", .pbytes b1), ("t2", .pbytes b2), ("dog", .pbytes b3)]
        , created := [.basePng, .maskPng, .t1Png]
        , deleted := [] }

/-- The `data[0]` object of an Images API response: a duck-typed record
that may carry a `url` and may carry a `b64_json` field. -/
structure ImagesResult where
  url : Option String
  b64_json : Option String
deriving DecidableEq, Repr

/-- Python truthiness of an optional string attribute: `None` and the
empty string are falsy. -/
def truthyStr : Option String → Option String
  | none => none
  | some s => if s = "" then none else some s

/-- The shared result-extraction tail of `edit_image_with_prompt` and
`generate_image_from_prompt` (openai_client.py lines 84-96 and
114-126): if `data[0].url` is truthy, fetch it (`httpx.get` +
`raise_for_status`, which raises on network failure or a non-2xx
status); otherwise if `b64_json` is truthy, decode it; otherwise raise.
`fetch` is the external HTTP retrieval, `none` when it fails;
`b64decode` is the external base64 decoder. -/
def images_result_to_bytes (fetch : String → Option (List Nat))
    (b64decode : String → List Nat) (r : ImagesResult) : Except String (List Nat) :=
  match truthyStr r.url with
  | some u =>
    match fetch u with
    | some bs => .ok bs
    | none => .error "HTTPError"
  | none =>
    match truthyStr r.b64_json with
    | some b => .ok (b64decode b)
    | none => .error "Images API returned neither url nor b64_json."

/-- UTF-8 bytes of a string. -/
def utf8Bytes (s : String) : List Nat := s.toUTF8.toList.map (fun b => b.toNat)

/-- Python `v.encode("utf-8")`: defined on `str`, raises
`AttributeError` on `bytes` (the exception text, quote characters
dropped, is: bytes object has no attribute encode). -/
def pyEncodeUtf8 : PyStrBytes → Except String (List Nat)
  | .pstr s => .ok (utf8Bytes s)
  | .pbytes _ => .error "bytes object has no attribute encode"

/-- The persistence loop of `main.py` lines 155-161: for each returned
item, build an `ImageAsset` with `mime_type = "text/plain"` and
`data = url.encode("utf-8")`.  Returns the rows added before the first
exception, and the exception if one occurred (evaluating `.encode` on a
`bytes` value raises before the row is added). -/
def persist_assets : List (String × PyStrBytes) → List Asset × Option String
  | [] => ([], none)
  | (kind, v) :: rest =>
    match pyEncodeUtf8 v with
    | .error e => ([], some e)
    | .ok bs =>
      let r := persist_assets rest
      ({ kind := kind, mime_type := "text/plain", data := .pbytes bs } :: r.1, r.2)

/-- The top-level exception handler of `main.py` lines 172-178:
re-fetch the job row and, when present, set `status = "error"` and
record the exception text. -/
def setError (st : DBState) (e : String) : DBState :=
  { st with gen := st.gen.map (fun g => { g with status := .error, error_message := some e }) }

/-- `main.py` lines 138-140: `select(ImageAsset).where(kind ==
"original")` followed by `.scalar_one()`, which raises `NoResultFound`
when no row matches and `MultipleResultsFound` when several do. -/
def scalar_one_original (assets : List Asset) : Except String Asset :=
  match assets.filter (fun a => a.kind == "original") with
  | [] => .error "No row was found when one was required"
  | [a] => .ok a
  | _ => .error "Multiple rows were found when exactly one was required"

/-- The external inputs of one worker run: the outcome of
`detect_breed_from_headshot` (exception, or the parsed/fallback dict)
and the outcomes of the three synthesis calls. -/
structure WorkerEnv where
  detect : Except String JVal
  synth : SynthOutcomes

/-- Result of one worker run: the final database rows and the temporary
files created and deleted along the way. -/
structure WorkerResult where
  db : DBState
  created : List TempFile
  deleted : List TempFile
deriving DecidableEq, Repr

/-- `_start_generation_thread` (main.py lines 129-182) for job rows
`st`, launched by user `uid`: return silently if the row is missing or
owned by someone else; load the `original` asset with `scalar_one`;
detect the breed, derive and commit `breed`; copy the original to a
temp file (`originalCopy`); run `generate_images_multithreaded`; on
success iterate the returned dict persisting assets and set status
`done`.  The `finally` at lines 166-170 unlinks `originalCopy` on every
path after its creation; every exception after the ownership checks is
caught at lines 172-178 and recorded as status `error` (the handler's
commit also commits any rows added before the exception). -/
def start_generation_thread (uid : Nat) (env : WorkerEnv) (st : DBState) : WorkerResult :=
  match st.gen with
  | none => { db := st, created := [], deleted := [] }
  | some gen =>
    if gen.user_id ≠ uid then { db := st, created := [], deleted := [] }
    else
      match scalar_one_original st.assets with
      | .error e => { db := setError st e, created := [], deleted := [] }
      | .ok _ =>
        match env.detect with
        | .error e => { db := setError st e, created := [], deleted := [] }
        | .ok info =>
          match breedFromInfo info with
          | .error e => { db := setError st e, created := [], deleted := [] }
          | .ok breed =>
            let st1 : DBState := { st with gen := some { gen with breed := some breed } }
            let g := generate_images_multithreaded breed env.synth
            match g.result with
            | .error e =>
              { db := setError st1 e
              , created := .originalCopy :: g.created
              , deleted := g.deleted ++ [.originalCopy] }
            | .ok items =>
              match persist_assets items with
              | (added, some e) =>
                { db := { gen := (setError st1 e).gen, assets := st.assets ++ added }
                , created := .originalCopy :: g.created
                , deleted := g.deleted ++ [.originalCopy] }
              | (added, none) =>
                { db := { gen := some { gen with breed := some breed
                                               , status := .done
                                               , error_message := none }
                        , assets := st.assets ++ added }
                , created := .originalCopy :: g.created
                , deleted := g.deleted ++ [.originalCopy] }

/-! ## Sample job rows and environments used for concrete runs -/

def gen0 : Generation :=
  { user_id := 1, breed := none, status := .processing, error_message := none }

def origAsset0 : Asset :=
  { kind := "original", mime_type := "image/jpeg", data := .pbytes [9] }

def sampleSt : DBState := { gen := some gen0, assets := [origAsset0] }

def info0 : JVal := .jobj [("breed", .jstr "Beagle")]

def synthOk : SynthOutcomes := { t1 := .ok [1], t2 := .ok [2], dog := .ok [3] }

def sampleEnvOk : WorkerEnv := { detect := .ok info0, synth := synthOk }

def synthT2Fail : SynthOutcomes :=
  { t1 := .ok [1], t2 := .error "edit2 boom", dog := .ok [3] }

def sampleEnvT2Fail : WorkerEnv := { detect := .ok info0, synth := synthT2Fail }

/-! ## Helper lemmas -/

theorem gen_images_deleted_eq_nil (breed : String) (s : SynthOutcomes) :
    (generate_images_multithreaded breed s).deleted = [] := by
  obtain ⟨t1, t2, dog⟩ := s
  unfold generate_images_multithreaded
  cases t1 <;> cases t2 <;> cases dog <;> rfl

theorem append_ne_empty_left (a b : String) (h : 0 < a.length) : a ++ b ≠ "" := by
  intro hc
  have hl := congrArg String.length hc
  rw [String.length_append] at hl
  simp at hl
  omega

/-- `s` has `sub` as a contiguous substring. -/
def hasSub (s sub : String) : Prop := ∃ a b, s = a ++ (sub ++ b)

/-- The shared literal prefix of the two edit prompts, up to the
intensity marker. -/
def prompt_sub_pre : String :=
  "Edit ONLY the face area. Keep the same person, same body, same clothes, same background. Do NOT add any extra animals, extra faces, or split-screen/comparison panels. One subject only. "

/-- C3: for every detection response whose payload cannot be parsed as
well-formed structured data (the full payload fails to parse and so
does the largest brace-delimited substring, when one exists), the
pipeline substitutes the fixed default breed and continues: the parse
tail returns the fallback record, the worker derives the breed "Golden
Retriever" from it without raising, and the whole worker run is
indistinguishable from a run whose detection succeeded with the
fallback record, so the parse failure never drives the job to status
error. -/
theorem c3_parse_failure_recoverable
    (parse : List Char → Option JVal) (text : List Char)
    (hfull : parse text = none)
    (hsub : ∀ sub, bracesSub text = some sub → parse sub = none) :
    detect_breed_parse parse text = fallback_breed_info ∧
    breedFromInfo (detect_breed_parse parse text) = .ok "Golden Retriever" ∧
    ∀ (uid : Nat) (synth : SynthOutcomes) (st : DBState),
      start_generation_thread uid
          { detect := .ok (detect_breed_parse parse text), synth := synth } st =
        start_generation_thread uid
          { detect := .ok fallback_breed_info, synth := synth } st := by
  have h1 : detect_breed_parse parse text = fallback_breed_info := by
    cases hb : bracesSub text with
    | none => simp [detect_breed_parse, hfull, hb]
    | some sub => simp [detect_breed_parse, hfull, hb, hsub sub hb]
  have h2 : breedFromInfo fallback_breed_info = .ok "Golden Retriever" := by
    simp [breedFromInfo, fallback_breed_info, pyStrip]
  exact ⟨h1, by rw [h1, h2], fun uid synth st => by rw [h1]⟩

theorem c3_parse_failure_recoverable_witness :
    detect_breed_parse (fun _ => none) ("totally malformed".toList) = fallback_breed_info :=
  (c3_parse_failure_recoverable (fun _ => none) ("totally malformed".toList) rfl
    (fun _ _ => rfl)).1

/-- C4 counterexample: on a 1024x1024 canvas the ellipse bounding box
computed by `_make_face_mask` is x in [163, 860], y in [40, 839], not
the [164, 861] x [41, 840] box the claim states. -/
theorem c4_bounds_counterexample :
    make_face_mask_bounds 1024 1024 = (163, 860, 40, 839) ∧
    make_face_mask_bounds 1024 1024 ≠ (164, 861, 41, 840) := by
  constructor <;> decide

/-- C4 amended: the mask has the same pixel dimensions as the canvas,
and the ellipse bounds are the truncations (floors) of 16 percent and
84 percent of the width and 4 percent and 82 percent of the height;
for a 1024x1024 canvas the bounding box is x in [163, 860],
y in [40, 839]. -/
theorem c4_mask_bounds (w h : Nat) :
    make_face_mask_size w h = (w, h) ∧
    (make_face_mask_bounds w h).1 * 100 ≤ w * 16 ∧
    w * 16 < ((make_face_mask_bounds w h).1 + 1) * 100 ∧
    (make_face_mask_bounds w h).2.1 * 100 ≤ w * 84 ∧
    w * 84 < ((make_face_mask_bounds w h).2.1 + 1) * 100 ∧
    (make_face_mask_bounds w h).2.2.1 * 100 ≤ h * 4 ∧
    h * 4 < ((make_face_mask_bounds w h).2.2.1 + 1) * 100 ∧
    (make_face_mask_bounds w h).2.2.2 * 100 ≤ h * 82 ∧
    h * 82 < ((make_face_mask_bounds w h).2.2.2 + 1) * 100 ∧
    make_face_mask_bounds 1024 1024 = (163, 860, 40, 839) := by
  refine ⟨rfl, ?_, ?_, ?_, ?_, ?_, ?_, ?_, ?_, by decide⟩ <;>
    simp only [make_face_mask_bounds] <;> omega

/-- C5: for every decodable input image, the normalization returns a
square image with no transparency channel; the saved size is at most
4 MiB whenever the single 768x768 fallback encoding fits (which the
PNG format guarantees at that resolution); the output is 1024x1024
exactly when the first encoding fits the 4 MiB ceiling, and otherwise
the single deterministic fallback at 768x768 is returned, with no
iterative search. -/
theorem c5_normalize (enc : Nat → Nat) (img : PilImage)
    (h768 : enc 768 ≤ 4 * 1024 * 1024) :
    (square_png_under_4mb enc img).1.width = (square_png_under_4mb enc img).1.height ∧
    (square_png_under_4mb enc img).1.alpha = false ∧
    (square_png_under_4mb enc img).2 ≤ 4 * 1024 * 1024 ∧
    (enc 1024 ≤ 4 * 1024 * 1024 →
      (square_png_under_4mb enc img).1 = { width := 1024, height := 1024, alpha := false } ∧
      (square_png_under_4mb enc img).2 = enc 1024) ∧
    (4 * 1024 * 1024 < enc 1024 →
      (square_png_under_4mb enc img).1 = { width := 768, height := 768, alpha := false } ∧
      (square_png_under_4mb enc img).2 = enc 768) := by
  simp only [square_png_under_4mb]
  split
  next hc =>
    exact ⟨rfl, rfl, h768, fun h => absurd hc (by omega), fun _ => ⟨rfl, rfl⟩⟩
  next hc =>
    exact ⟨rfl, rfl, by omega, fun _ => ⟨rfl, rfl⟩, fun h => absurd h (by omega)⟩

theorem c5_normalize_witness :
    (square_png_under_4mb (fun _ => 100)
        { width := 1200, height := 800, alpha := true }).1.width =
      (square_png_under_4mb (fun _ => 100)
        { width := 1200, height := 800, alpha := true }).1.height ∧
    (square_png_under_4mb (fun _ => 100)
        { width := 1200, height := 800, alpha := true }).2 ≤ 4 * 1024 * 1024 :=
  ⟨(c5_normalize (fun _ => 100) { width := 1200, height := 800, alpha := true }
      (by decide)).1,
   (c5_normalize (fun _ => 100) { width := 1200, height := 800, alpha := true }
      (by decide)).2.2.1⟩

set_option maxRecDepth 20000 in
/-- C9: `generate_transition_prompts` is a pure deterministic function
of the breed; the three prompts are non-empty, each contains the breed
substring, the first edit prompt contains the subtle-intensity marker
"Subtle (30%)" and the second the stronger-intensity marker
"Stronger (70%)". -/
theorem c9_prompts (breed : String) :
    generate_transition_prompts breed = generate_transition_prompts breed ∧
    (generate_transition_prompts breed).t1 ≠ "" ∧
    (generate_transition_prompts breed).t2 ≠ "" ∧
    (generate_transition_prompts breed).dog ≠ "" ∧
    hasSub (generate_transition_prompts breed).t1 breed ∧
    hasSub (generate_transition_prompts breed).t2 breed ∧
    hasSub (generate_transition_prompts breed).dog breed ∧
    hasSub (generate_transition_prompts breed).t1 "Subtle (30%)" ∧
    hasSub (generate_transition_prompts breed).t2 "Stronger (70%)" := by
  refine ⟨rfl,
    append_ne_empty_left _ _ (by decide),
    append_ne_empty_left _ _ (by decide),
    append_ne_empty_left _ _ (by decide),
    ⟨t1_pre, t1_post, rfl⟩,
    ⟨t2_pre, t2_post, rfl⟩,
    ⟨dog_pre, dog_post, rfl⟩,
    ⟨prompt_sub_pre, " " ++ (breed ++ t1_post), ?_⟩,
    ⟨prompt_sub_pre, " " ++ (breed ++ t2_post), ?_⟩⟩
  · show t1_pre ++ (breed ++ t1_post) =
      prompt_sub_pre ++ ("Subtle (30%)" ++ (" " ++ (breed ++ t1_post)))
    rw [show t1_pre = prompt_sub_pre ++ ("Subtle (30%)" ++ " ") by decide,
      String.append_assoc, String.append_assoc]
  · show t2_pre ++ (breed ++ t2_post) =
      prompt_sub_pre ++ ("Stronger (70%)" ++ (" " ++ (breed ++ t2_post)))
    rw [show t2_pre = prompt_sub_pre ++ ("Stronger (70%)" ++ " ") by decide,
      String.append_assoc, String.append_assoc]

/-- C10: the fixed fallback detection record is exactly breed "Golden
Retriever", confidence 0.3, reasoning "Fallback due to parsing
error."; and whenever the parsed detection payload lacks a breed key,
or its breed value is the empty string, the worker derives the
persisted breed "Golden Retriever" (stripped). -/
theorem c10_fallback_default :
    fallback_breed_info =
      .jobj [("breed", .jstr "Golden Retriever"), ("confidence", .jnum (3 / 10)),
             ("reasoning", .jstr "Fallback due to parsing error.")] ∧
    breedFromInfo fallback_breed_info = .ok "Golden Retriever" ∧
    pyStrip "Golden Retriever" = "Golden Retriever" ∧
    (∀ kvs : List (String × JVal), kvs.lookup "breed" = none →
      breedFromInfo (.jobj kvs) = .ok "Golden Retriever") ∧
    (∀ kvs : List (String × JVal), kvs.lookup "breed" = some (.jstr "") →
      breedFromInfo (.jobj kvs) = .ok "Golden Retriever") := by
  refine ⟨rfl, by simp [breedFromInfo, fallback_breed_info, pyStrip],
    by simp [pyStrip], ?_, ?_⟩
  · intro kvs h
    simp [breedFromInfo, h, pyStrip]
  · intro kvs h
    simp [breedFromInfo, h, pyStrip]

theorem c10_fallback_default_witness :
    breedFromInfo (.jobj [("confidence", .jnum (9 / 10))]) = .ok "Golden Retriever" :=
  c10_fallback_default.2.2.2.1 [("confidence", .jnum (9 / 10))] rfl

/-- Helper: a worker run whose `generate_images_multithreaded` call
raises ends with the breed committed, status error carrying the raised
message, no asset rows added, and only the original-copy temp file
deleted. -/
theorem worker_genrun_error (uid : Nat) (env : WorkerEnv) (st : DBState)
    (gen : Generation) (orig : Asset) (info : JVal) (br : String) (e : String)
    (cr : List TempFile)
    (hg : st.gen = some gen) (hu : gen.user_id = uid)
    (ho : st.assets.filter (fun a => a.kind == "original") = [orig])
    (hd : env.detect = .ok info) (hbr : breedFromInfo info = .ok br)
    (hgr : generate_images_multithreaded br env.synth =
      { result := .error e, created := cr, deleted := [] }) :
    start_generation_thread uid env st =
      { db :=
          { gen := some
              { gen with
                  breed := some br
                , status := .error
                , error_message := some e }
          , assets := st.assets }
      , created := .originalCopy :: cr
      , deleted := [.originalCopy] } := by
  have hso : scalar_one_original st.assets = .ok orig := by
    unfold scalar_one_original; rw [ho]
  simp [start_generation_thread, hg, hu, hso, hd, hbr, hgr, setError]

/-- C1 counterexample: a run whose edit1 succeeds and whose edit2
fails ends in status error with the edit2 message, but with ZERO
derived assets beyond the original, not the one `edit1` asset the
claim states: stage outputs are not persisted at per-stage
checkpoints. -/
theorem c1_checkpoint_counterexample :
    start_generation_thread 1 sampleEnvT2Fail sampleSt =
      { db :=
          { gen := some
              { user_id := 1
              , breed := some "Beagle"
              , status := .error
              , error_message := some "edit2 boom" }
          , assets := [origAsset0] }
      , created := [.originalCopy, .basePng, .maskPng, .t1Png]
      , deleted := [.originalCopy] } ∧
    ((start_generation_thread 1 sampleEnvT2Fail sampleSt).db.assets.filter
        (fun a => a.kind != "original")).length = 0 := by
  constructor <;> decide

/-- C1 amended: for every job whose pipeline fails at the edit2 stage
after edit1 succeeded, the job ends in status error carrying the
failure message, and NO derived asset beyond the original is
persisted: stage outputs are accumulated in memory and written to the
store only in a single batch after all three stages succeed, so a job
reaching error holds no derived assets at all. -/
theorem c1_edit2_failure (uid : Nat) (env : WorkerEnv) (st : DBState)
    (gen : Generation) (orig : Asset) (info : JVal) (br : String)
    (b : List Nat) (e : String)
    (hg : st.gen = some gen) (hu : gen.user_id = uid)
    (ho : st.assets.filter (fun a => a.kind == "original") = [orig])
    (hd : env.detect = .ok info) (hbr : breedFromInfo info = .ok br)
    (ht1 : env.synth.t1 = .ok b) (ht2 : env.synth.t2 = .error e) :
    start_generation_thread uid env st =
      { db :=
          { gen := some
              { gen with
                  breed := some br
                , status := .error
                , error_message := some e }
          , assets := st.assets }
      , created := [.originalCopy, .basePng, .maskPng, .t1Png]
      , deleted := [.originalCopy] } :=
  worker_genrun_error uid env st gen orig info br e [.basePng, .maskPng, .t1Png]
    hg hu ho hd hbr
    (by unfold generate_images_multithreaded; rw [ht1, ht2])

theorem c1_edit2_failure_witness :
    start_generation_thread 1 sampleEnvT2Fail sampleSt =
      { db :=
          { gen := some
              { user_id := 1
              , breed := some "Beagle"
              , status := .error
              , error_message := some "edit2 boom" }
          , assets := [origAsset0] }
      , created := [.originalCopy, .basePng, .maskPng, .t1Png]
      , deleted := [.originalCopy] } :=
  c1_edit2_failure 1 sampleEnvT2Fail sampleSt gen0 origAsset0 info0 "Beagle" [1]
    "edit2 boom" rfl rfl rfl rfl rfl rfl rfl

/-- C2: the success path is unreachable as written.  On a run whose
three synthesis calls all succeed (returning `bytes`), the persistence
loop of `main.py` line 160 calls `.encode("utf-8")` on a `bytes`
value, raising `AttributeError`; the job therefore ends in status
error with no derived asset persisted, and never reaches `done`. -/
theorem c2_done_unreachable :
    start_generation_thread 1 sampleEnvOk sampleSt =
      { db :=
          { gen := some
              { user_id := 1
              , breed := some "Beagle"
              , status := .error
              , error_message := some "bytes object has no attribute encode" }
          , assets := [origAsset0] }
      , created := [.originalCopy, .basePng, .maskPng, .t1Png]
      , deleted := [.originalCopy] } ∧
    (start_generation_thread 1 sampleEnvOk sampleSt).db.gen.map Generation.status ≠
      some Status.done := by
  constructor <;> decide

/-- C6 counterexample: with the job row present and owned by the
caller but the `original` asset row absent, the worker does NOT abort
silently: `scalar_one()` raises, the top-level handler catches it, and
the job is mutated to status error. -/
theorem c6_missing_original_counterexample :
    start_generation_thread 1 sampleEnvOk { gen := some gen0, assets := [] } =
      { db :=
          { gen := some
              { user_id := 1
              , breed := none
              , status := .error
              , error_message := some "No row was found when one was required" }
          , assets := [] }
      , created := [], deleted := [] } ∧
    (start_generation_thread 1 sampleEnvOk { gen := some gen0, assets := [] }).db ≠
      { gen := some gen0, assets := [] } := by
  constructor <;> decide

/-- C6 amended: if the job row is absent or its owner differs from the
launching caller, the worker returns without mutating anything; but if
the job row is present and owned by the caller while its `original`
asset is absent, the lookup raises and the job transitions to status
error with the lookup exception message (it does not stay in its prior
state). -/
theorem c6_worker_entry_guard (uid : Nat) (env : WorkerEnv) (st : DBState) :
    (st.gen = none →
      start_generation_thread uid env st = { db := st, created := [], deleted := [] }) ∧
    (∀ g, st.gen = some g → g.user_id ≠ uid →
      start_generation_thread uid env st = { db := st, created := [], deleted := [] }) ∧
    (∀ g, st.gen = some g → g.user_id = uid →
      st.assets.filter (fun a => a.kind == "original") = [] →
      start_generation_thread uid env st =
        { db := setError st "No row was found when one was required"
        , created := [], deleted := [] }) := by
  refine ⟨?_, ?_, ?_⟩
  · intro h
    simp [start_generation_thread, h]
  · intro g hg hne
    simp [start_generation_thread, hg, hne]
  · intro g hg heq hfil
    have hso : scalar_one_original st.assets =
        .error "No row was found when one was required" := by
      unfold scalar_one_original; rw [hfil]
    simp [start_generation_thread, hg, heq, hso]

theorem c6_worker_entry_guard_witness :
    start_generation_thread 2 sampleEnvOk sampleSt =
      { db := sampleSt, created := [], deleted := [] } :=
  (c6_worker_entry_guard 2 sampleEnvOk sampleSt).2.1 gen0 rfl (by decide)

/-- C7 counterexample: on a fully successful synthesis run the worker
creates the normalized-canvas, mask and edit1-output temp files but
deletes only the original-copy temp file: the other three buffers are
not released on this exit path (nor on any other). -/
theorem c7_temp_cleanup_counterexample :
    TempFile.basePng ∈ (start_generation_thread 1 sampleEnvOk sampleSt).created ∧
    TempFile.basePng ∉ (start_generation_thread 1 sampleEnvOk sampleSt).deleted ∧
    TempFile.maskPng ∈ (start_generation_thread 1 sampleEnvOk sampleSt).created ∧
    TempFile.maskPng ∉ (start_generation_thread 1 sampleEnvOk sampleSt).deleted ∧
    TempFile.t1Png ∈ (start_generation_thread 1 sampleEnvOk sampleSt).created ∧
    TempFile.t1Png ∉ (start_generation_thread 1 sampleEnvOk sampleSt).deleted := by
  refine ⟨?_, ?_, ?_, ?_, ?_, ?_⟩ <;> decide

/-- C7 amended: on every exit path of the worker, the only temporary
file ever deleted is the copy of the original (which is reliably
deleted whenever it was created, via the `finally` block); the
normalized canvas, the mask and the edit1-output temp files are never
deleted on any path. -/
theorem c7_temp_cleanup (uid : Nat) (env : WorkerEnv) (st : DBState) :
    (TempFile.originalCopy ∈ (start_generation_thread uid env st).created →
      TempFile.originalCopy ∈ (start_generation_thread uid env st).deleted) ∧
    (∀ f, f ∈ (start_generation_thread uid env st).deleted → f = TempFile.originalCopy) ∧
    TempFile.basePng ∉ (start_generation_thread uid env st).deleted ∧
    TempFile.maskPng ∉ (start_generation_thread uid env st).deleted ∧
    TempFile.t1Png ∉ (start_generation_thread uid env st).deleted := by
  obtain ⟨og, assets⟩ := st
  obtain ⟨det, synth⟩ := env
  cases og with
  | none => simp [start_generation_thread]
  | some gen =>
    by_cases huid : gen.user_id = uid
    · cases hso : scalar_one_original assets with
      | error e => simp [start_generation_thread, huid, hso]
      | ok orig =>
        cases det with
        | error e => simp [start_generation_thread, huid, hso]
        | ok info =>
          cases hbr : breedFromInfo info with
          | error e => simp [start_generation_thread, huid, hso, hbr]
          | ok br =>
            cases hres : (generate_images_multithreaded br synth).result with
            | error e =>
              simp [start_generation_thread, huid, hso, hbr, hres,
                gen_images_deleted_eq_nil]
            | ok items =>
              rcases hper : persist_assets items with ⟨added, err⟩
              cases err <;>
                simp [start_generation_thread, huid, hso, hbr, hres, hper,
                  gen_images_deleted_eq_nil]
    · simp [start_generation_thread, huid]

theorem c7_temp_cleanup_witness :
    TempFile.originalCopy ∈ (start_generation_thread 1 sampleEnvOk sampleSt).deleted :=
  (c7_temp_cleanup 1 sampleEnvOk sampleSt).1 (by decide)

/-- C8: the client returns the image bytes when the result carries a
truthy remotely-hosted reference that fetches successfully, or (when no
truthy reference is present) an inline base64 payload; it raises
exactly when neither representation is present or the network
retrieval of the reference fails.  When the first edit call raises,
the worker aborts the remaining stages (only the canvas and mask temp
files were created, not the edit1 buffer), records the message in
`error_message` and sets status error, with no derived asset
persisted. -/
theorem c8_synthesis_result_handling
    (fetch : String → Option (List Nat)) (dec : String → List Nat) (r : ImagesResult) :
    ((∃ e, images_result_to_bytes fetch dec r = .error e) ↔
      ((truthyStr r.url = none ∧ truthyStr r.b64_json = none) ∨
        (∃ u, truthyStr r.url = some u ∧ fetch u = none))) ∧
    (∀ u bs, truthyStr r.url = some u → fetch u = some bs →
      images_result_to_bytes fetch dec r = .ok bs) ∧
    (∀ b, truthyStr r.url = none → truthyStr r.b64_json = some b →
      images_result_to_bytes fetch dec r = .ok (dec b)) ∧
    (∀ (uid : Nat) (env : WorkerEnv) (st : DBState) (gen : Generation) (orig : Asset)
        (info : JVal) (br : String) (e : String),
      st.gen = some gen → gen.user_id = uid →
      st.assets.filter (fun a => a.kind == "original") = [orig] →
      env.detect = .ok info → breedFromInfo info = .ok br →
      env.synth.t1 = .error e →
      start_generation_thread uid env st =
        { db :=
            { gen := some
                { gen with
                    breed := some br
                  , status := .error
                  , error_message := some e }
            , assets := st.assets }
        , created := [.originalCopy, .basePng, .maskPng]
        , deleted := [.originalCopy] }) := by
  refine ⟨?_, ?_, ?_, ?_⟩
  · cases hu : truthyStr r.url with
    | some u =>
      cases hf : fetch u with
      | some bs => simp [images_result_to_bytes, hu, hf]
      | none => simp [images_result_to_bytes, hu, hf]
    | none =>
      cases hb : truthyStr r.b64_json with
      | some b => simp [images_result_to_bytes, hu, hb]
      | none => simp [images_result_to_bytes, hu, hb]
  · intro u bs hu hf
    simp [images_result_to_bytes, hu, hf]
  · intro b hu hb
    simp [images_result_to_bytes, hu, hb]
  · intro uid env st gen orig info br e hg huid ho hd hbr ht1
    exact worker_genrun_error uid env st gen orig info br e [.basePng, .maskPng]
      hg huid ho hd hbr
      (by unfold generate_images_multithreaded; rw [ht1])

theorem c8_synthesis_result_handling_witness :
    images_result_to_bytes (fun _ => some [5]) (fun _ => [])
      { url := some "http-ref", b64_json := none } = .ok [5] :=
  (c8_synthesis_result_handling (fun _ => some [5]) (fun _ => [])
    { url := some "http-ref", b64_json := none }).2.1 "http-ref" [5] (by decide) rfl

theorem c4_mask_bounds_witness :
    make_face_mask_bounds 1024 1024 = (163, 860, 40, 839) :=
  (c4_mask_bounds 1024 1024).2.2.2.2.2.2.2.2.2

theorem c9_prompts_witness :
    (generate_transition_prompts "Beagle").t1 ≠ "" :=
  (c9_prompts "Beagle").2.1
